import Mathlib

set_option maxRecDepth 4000

/-!
Verification of the resolution-and-routing core of the verifiable-data agent.

Python strings are embedded as lists of Unicode codepoints (`PyStr`),
JSON-like Python values as the inductive `PyVal`, and each source function as a
computable Lean function.  Stateful pieces (the per-domain TTL caches, the
session store) are threaded explicitly.  The one external collaborator (the
CoinGecko HTTP call) is a parameter of the crypto resolver, and the sha256
content digest is passed in as a function parameter (its value is never
inspected by the properties below).
-/

/-- A Python string, as its list of Unicode codepoints. -/
abbrev PyStr := List Nat

/-- Codepoints of a Lean string literal (used only to write `PyStr` literals). -/
def pys (s : String) : PyStr := s.data.map Char.toNat

/-- The single-quote character, written by codepoint to keep literals plain. -/
def squo : PyStr := [39]

/-- Embedding of Python `str.lower` on one codepoint (ASCII fragment, which is
the alphabet of every identifier and literal in the repository). -/
def pyLowerChar (c : Nat) : Nat := if 65 ≤ c ∧ c ≤ 90 then c + 32 else c

/-- Embedding of Python `str.lower`. -/
def pyLower (s : PyStr) : PyStr := s.map pyLowerChar

/-- Embedding of Python `str.replace(" ", "_")`. -/
def pySpaceToUnderscore (s : PyStr) : PyStr :=
  s.map (fun c => if c = 32 then 95 else c)

/-- Embedding of Python's decimal rendering of a natural number. -/
def natStr (n : Nat) : PyStr := (Nat.repr n).data.map Char.toNat

/-- Embedding of Python `", ".join(xs)`. -/
def joinComma (xs : List PyStr) : PyStr := List.intercalate (pys ", ") xs

/-- Association-list lookup with propositional key equality; embeds Python
`dict` indexing (insertion order is kept, keys are unique). -/
def alookup {α : Type} (k : PyStr) : List (PyStr × α) → Option α
  | [] => none
  | (a, b) :: es => if a = k then some b else alookup k es

/-- A JSON-like Python value.  A numeric literal `m × 10^(-e)` is stored as the
exact decimal pair `num m e` (the code only copies numbers, never computes). -/
inductive PyVal where
  | s (v : PyStr)
  | num (mantissa : Int) (exp10 : Nat)
  | boolean (b : Bool)
  | null
  | list (vs : List PyVal)
  | dict (d : List (PyStr × PyVal))

/-- An integer-valued Python number. -/
def pyInt (n : Int) : PyVal := .num n 0

/-- A Python dict with string keys. -/
abbrev PyDict := List (PyStr × PyVal)

/-- Embedding of `d[k]` / `d.get(k)` where an absent key yields `None`. -/
def pyGet (d : PyDict) (k : PyStr) : PyVal := (alookup k d).getD PyVal.null

/-- Embedding of `d.get(k, default)`. -/
def pyGetD (d : PyDict) (k : PyStr) (dflt : PyVal) : PyVal := (alookup k d).getD dflt

/-- Python truthiness of a value. -/
def truthy : PyVal → Bool
  | .s v => !v.isEmpty
  | .num m _ => !(m == 0)
  | .boolean b => b
  | .null => false
  | .list vs => !vs.isEmpty
  | .dict d => !d.isEmpty

/-- Embedding of Python `a or b`. -/
def pyOr (a b : PyVal) : PyVal := if truthy a then a else b

/-- The codepoints of a value known to be a string (the repository only
interpolates string-valued record fields). -/
def pyStrOf : PyVal → PyStr
  | .s v => v
  | _ => []

/-- Suffix of `hay` after the last occurrence of `needle` (the last element of
Python `hay.split(needle)`); `hay` itself when there is no occurrence. -/
def afterLast (needle : PyStr) (hay : PyStr) : PyStr :=
  match hay with
  | [] => []
  | c :: rest =>
    if needle <+: (c :: rest) ∧ needle ≠ [] then
      if needle <:+: ((c :: rest).drop needle.length) then
        afterLast needle ((c :: rest).drop needle.length)
      else (c :: rest).drop needle.length
    else
      if needle <:+: rest then afterLast needle rest else c :: rest
termination_by hay.length
decreasing_by
  · simp only [List.length_drop, List.length_cons]
    rename_i h _
    have : needle.length ≠ 0 := by
      intro h0
      exact h.2 (List.eq_nil_of_length_eq_zero h0)
    omega
  · simp [Nat.lt_succ_self]

/-- The common response-envelope shape (the result dict of every domain
resolver; mirrors the `VerifiableDataResponse` fields other than the
session id). -/
structure Envelope where
  request_data_type : PyStr
  request_identifier : PyStr
  source_description : Option PyStr
  timestamp : Option PyStr
  data_payload : Option PyDict
  verification_summary : Option PyStr
  error_message : Option PyStr

/-- One TTL-cache entry: the record snapshot and the time it was cached. -/
structure CacheEntry where
  data : PyDict
  cached_at : Nat

/-- A per-domain TTL cache (`{cache_key: {"data": ..., "cached_at": ...}}`). -/
abbrev Cache := List (PyStr × CacheEntry)

/-- The shared cache-validity window of 300 seconds (every domain module). -/
def CACHE_EXPIRY_SECONDS : Nat := 300

/-- Python dict assignment `cache[key] = entry`: overwrite in place or append. -/
def setKey (c : Cache) (k : PyStr) (e : CacheEntry) : Cache :=
  match c with
  | [] => [(k, e)]
  | p :: rest => if p.1 = k then (k, e) :: rest else p :: setKey rest k e

/-- The inlined TTL-cache read/compute/store step shared by the domain
modules: return the cached value while the entry is strictly younger than
`CACHE_EXPIRY_SECONDS`; otherwise take `stored` (the record-store lookup) and,
when a record was found, store it under `key` with timestamp `now`. -/
def cacheStep (cache : Cache) (key : PyStr) (now : Nat) (stored : Option PyDict) :
    Option PyDict × Cache :=
  let recompute : Option PyDict × Cache :=
    match stored with
    | some v => (some v, setKey cache key ⟨v, now⟩)
    | none => (none, cache)
  match alookup key cache with
  | some e => if now - e.cached_at < CACHE_EXPIRY_SECONDS then (some e.data, cache) else recompute
  | none => recompute

/-! ## education_credentials.py -/

/-- Bits of `n`, big-endian, `width` wide. -/
def toBits (width n : Nat) : List Nat :=
  (List.range width).map (fun i => n / 2 ^ (width - 1 - i) % 2)

/-- Split a bit list into 5-bit groups (the last group may be short). -/
def chunks5 : List Nat → List (List Nat)
  | [] => []
  | a :: rest => ((a :: rest).take 5) :: chunks5 (rest.drop 4)
termination_by l => l.length
decreasing_by simp only [List.length_drop, List.length_cons]; omega

/-- RFC 4648 base-32 alphabet. -/
def b32char (v : Nat) : Nat := if v < 26 then 65 + v else 50 + (v - 26)

/-- Embedding of `base64.b32encode` over a byte list (identifiers are ASCII, so
codepoints coincide with UTF-8 bytes). -/
def b32encode (bytes : List Nat) : List Nat :=
  let bits := (bytes.map (toBits 8)).flatten
  let chars := (chunks5 bits).map
    (fun g => b32char ((g ++ List.replicate (5 - g.length) 0).foldl (fun acc b => 2 * acc + b) 0))
  chars ++ List.replicate ((8 - chars.length % 8) % 8) 61

/-- The derived DID string: the prefix did:fetch: followed by the first 16
base-32 characters of the encoded identifier, lowercased. -/
def identifierDid (identifier : PyStr) : PyStr :=
  pys "did:fetch:" ++ pyLower ((b32encode identifier).take 16)

/-- The static credential store of `education_credentials.py`. -/
def simulated_credentials : List (PyStr × PyDict) :=
  [ (pys "john_smith",
      [ (pys "name", .s (pys "John Smith")),
        (pys "credentials", .list
          [ .dict
              [ (pys "type", .s (pys "Degree")),
                (pys "name", .s (pys "Bachelor of Science in Computer Science")),
                (pys "issuer", .s (pys "Stanford University")),
                (pys "issueDate", .s (pys "2020-06-15")),
                (pys "verificationStatus", .s (pys "VERIFIED")),
                (pys "did", .s (pys "did:example:123456789abcdefghi")),
                (pys "proofMethod", .s (pys "BBS+ Signatures")) ] ]) ]),
    (pys "jane_doe",
      [ (pys "name", .s (pys "Jane Doe")),
        (pys "credentials", .list
          [ .dict
              [ (pys "type", .s (pys "Certificate")),
                (pys "name", .s (pys "Blockchain Developer Certification")),
                (pys "issuer", .s (pys "Fetch.ai Academy")),
                (pys "issueDate", .s (pys "2023-02-10")),
                (pys "verificationStatus", .s (pys "VERIFIED")),
                (pys "did", .s (pys "did:example:987654321zyxwvuts")),
                (pys "proofMethod", .s (pys "Ed25519 Signature")) ],
            .dict
              [ (pys "type", .s (pys "Degree")),
                (pys "name", .s (pys "Master of Engineering")),
                (pys "issuer", .s (pys "MIT")),
                (pys "issueDate", .s (pys "2021-05-20")),
                (pys "verificationStatus", .s (pys "VERIFIED")),
                (pys "did", .s (pys "did:example:abcdef123456789")),
                (pys "proofMethod", .s (pys "ECDSA Signature")) ] ]) ]),
    (pys "alex_chen",
      [ (pys "name", .s (pys "Alex Chen")),
        (pys "credentials", .list
          [ .dict
              [ (pys "type", .s (pys "Certification")),
                (pys "name", .s (pys "Fetch.ai Certified Agent Developer")),
                (pys "issuer", .s (pys "Fetch.ai Foundation")),
                (pys "issueDate", .s (pys "2023-11-05")),
                (pys "verificationStatus", .s (pys "VERIFIED")),
                (pys "did", .s (pys "did:example:fetchai12345")),
                (pys "proofMethod", .s (pys "Secp256k1 Signature")) ] ]) ]) ]

/-- Embedding of `fetch_education_credential` of `education_credentials.py`: the cache key
and the store lookup both use the raw `identifier` exactly as received. -/
def fetch_education_credential (identifier : PyStr) (_query_details : Option PyStr)
    (timestamp : PyStr) (sha256hex : PyDict → PyStr) (cache : Cache) (now : Nat) :
    Envelope × Cache :=
  let cache_key := pys "education_" ++ identifier
  let r := cacheStep cache cache_key now (alookup identifier simulated_credentials)
  match r.1 with
  | some d =>
    if !d.isEmpty then
      ({ request_data_type := pys "education_credential"
         request_identifier := identifier
         source_description := some (pys "Verifiable Credentials System (Decentralized Identity Network)")
         timestamp := some timestamp
         data_payload := some
           [ (pys "profile", .dict
               [ (pys "name", pyGet d (pys "name")),
                 (pys "identifierDid", .s (identifierDid identifier)) ]),
             (pys "credentials", pyGet d (pys "credentials")),
             (pys "verificationProof", .s (sha256hex d)) ]
         verification_summary := some (pys "Credentials verified using decentralized identity protocols. Digital signatures validated against issuer DIDs.")
         error_message := none }, r.2)
    else
      ({ request_data_type := pys "education_credential"
         request_identifier := identifier
         source_description := some (pys "Verifiable Credentials System")
         timestamp := some timestamp
         data_payload := some []
         verification_summary := some (pys "No verified credentials found for this identifier.")
         error_message := some (pys "No education credentials found for identifier " ++ squo ++ identifier ++ squo ++ pys ".") }, r.2)
  | none =>
      ({ request_data_type := pys "education_credential"
         request_identifier := identifier
         source_description := some (pys "Verifiable Credentials System")
         timestamp := some timestamp
         data_payload := some []
         verification_summary := some (pys "No verified credentials found for this identifier.")
         error_message := some (pys "No education credentials found for identifier " ++ squo ++ identifier ++ squo ++ pys ".") }, r.2)

/-! ## supply_chain.py -/

/-- The static supply-chain store of `supply_chain.py`. -/
def simulated_supply_chains : List (PyStr × PyDict) :=
  [ (pys "costa_rica_coffee",
      [ (pys "name", .s (pys "Organic Fair Trade Coffee")),
        (pys "manufacturer", .s (pys "Ethical Beans Co.")),
        (pys "chain", .list
          [ .dict
              [ (pys "stage", .s (pys "Harvesting")),
                (pys "location", .s (pys "Costa Rica")),
                (pys "timestamp", .s (pys "2023-09-15T08:30:00Z")),
                (pys "verificationMethod", .s (pys "IoT Sensors + Blockchain")),
                (pys "verifier", .s (pys "AgriVerify DAO")) ],
            .dict
              [ (pys "stage", .s (pys "Processing")),
                (pys "location", .s (pys "San Jose, Costa Rica")),
                (pys "timestamp", .s (pys "2023-09-20T14:20:00Z")),
                (pys "verificationMethod", .s (pys "QR Code Scanning + Agent Verification")),
                (pys "verifier", .s (pys "SupplyTrust Network")) ],
            .dict
              [ (pys "stage", .s (pys "Shipping")),
                (pys "location", .s (pys "Atlantic Ocean")),
                (pys "timestamp", .s (pys "2023-10-05T10:15:00Z")),
                (pys "verificationMethod", .s (pys "GPS Tracking + Temperature Sensors")),
                (pys "verifier", .s (pys "ShipChain Collective")) ],
            .dict
              [ (pys "stage", .s (pys "Distribution Center")),
                (pys "location", .s (pys "Miami, FL, USA")),
                (pys "timestamp", .s (pys "2023-10-15T16:40:00Z")),
                (pys "verificationMethod", .s (pys "RFID + Blockchain Verification")),
                (pys "verifier", .s (pys "DistributionTrust Inc.")) ] ]),
        (pys "certifications", .list
          [ .s (pys "Fair Trade"), .s (pys "Organic"), .s (pys "Rainforest Alliance") ]),
        (pys "carbonFootprint", .s (pys "2.3kg CO2e (verified)")),
        (pys "blockchainRecords", .s (pys "fetch://supplychain/costa_rica_coffee")) ]),
    (pys "ecophone_x1",
      [ (pys "name", .s (pys "EcoPhone X1")),
        (pys "manufacturer", .s (pys "GreenTech Electronics")),
        (pys "chain", .list
          [ .dict
              [ (pys "stage", .s (pys "Component Sourcing")),
                (pys "location", .s (pys "Multiple (see detailed report)")),
                (pys "timestamp", .s (pys "2023-08-10T09:00:00Z")),
                (pys "verificationMethod", .s (pys "Supplier Attestations + Audits")),
                (pys "verifier", .s (pys "ComponentVerify Network")) ],
            .dict
              [ (pys "stage", .s (pys "Assembly")),
                (pys "location", .s (pys "Vietnam")),
                (pys "timestamp", .s (pys "2023-08-25T13:45:00Z")),
                (pys "verificationMethod", .s (pys "Manufacturing Process Verification")),
                (pys "verifier", .s (pys "ProductIntegrity DAO")) ],
            .dict
              [ (pys "stage", .s (pys "Quality Control")),
                (pys "location", .s (pys "Vietnam")),
                (pys "timestamp", .s (pys "2023-08-27T10:30:00Z")),
                (pys "verificationMethod", .s (pys "Automated Testing + Human Verification")),
                (pys "verifier", .s (pys "QualityChain Network")) ],
            .dict
              [ (pys "stage", .s (pys "Distribution")),
                (pys "location", .s (pys "Global Distribution Network")),
                (pys "timestamp", .s (pys "2023-09-10T08:20:00Z")),
                (pys "verificationMethod", .s (pys "Logistics Tracking + Blockchain")),
                (pys "verifier", .s (pys "LogisticsVerify Alliance")) ] ]),
        (pys "certifications", .list
          [ .s (pys "Fair Labor"), .s (pys "Sustainable Electronics"),
            .s (pys "Conflict-Free Minerals") ]),
        (pys "carbonFootprint", .s (pys "18.5kg CO2e (verified)")),
        (pys "blockchainRecords", .s (pys "fetch://supplychain/ecophone_x1")) ]) ]

/-- Embedding of `fetch_supply_chain_status` of `supply_chain.py`. -/
def fetch_supply_chain_status (identifier : PyStr) (_query_details : Option PyStr)
    (timestamp : PyStr) (sha256hex : PyDict → PyStr) (cache : Cache) (now : Nat) :
    Envelope × Cache :=
  let cache_key := pys "supply_chain_" ++ identifier
  let r := cacheStep cache cache_key now (alookup identifier simulated_supply_chains)
  let errorEnv : Envelope :=
    { request_data_type := pys "supply_chain_status"
      request_identifier := identifier
      source_description := some (pys "Supply Chain Verification Network")
      timestamp := some timestamp
      data_payload := some []
      verification_summary := some (pys "No supply chain data found for this product identifier.")
      error_message := some (pys "No supply chain information found for product identifier " ++ squo ++ identifier ++ squo ++ pys ".") }
  match r.1 with
  | some d =>
    if !d.isEmpty then
      ({ request_data_type := pys "supply_chain_status"
         request_identifier := identifier
         source_description := some (pys "Distributed Supply Chain Verification Network")
         timestamp := some timestamp
         data_payload := some
           [ (pys "product", .dict
               [ (pys "name", pyGet d (pys "name")),
                 (pys "manufacturer", pyGet d (pys "manufacturer")) ]),
             (pys "supplyChain", pyGet d (pys "chain")),
             (pys "certifications", pyGet d (pys "certifications")),
             (pys "sustainability", .dict
               [ (pys "carbonFootprint", pyGet d (pys "carbonFootprint")) ]),
             (pys "verificationProof", .dict
               [ (pys "method", .s (pys "Decentralized Ledger + Agent Consensus")),
                 (pys "hash", .s (sha256hex d)),
                 (pys "blockchainReference", pyGet d (pys "blockchainRecords")) ]) ]
         verification_summary := some (pys "Supply chain data verified through multiple attestation methods including IoT sensors, RFID tracking, and blockchain verification by independent verifier networks.")
         error_message := none }, r.2)
    else (errorEnv, r.2)
  | none => (errorEnv, r.2)

/-! ## carbon_footprint.py -/

/-- Embedding of `normalize_carbon_identifier`: lowercase, empty input returned unchanged. -/
def normalize_carbon_identifier (identifier : PyStr) : PyStr :=
  if identifier.isEmpty then identifier else pyLower identifier

/-- The static carbon store of `carbon_footprint.py`, keyed by scope. -/
def simulated_carbon_data : List (PyStr × List (PyStr × PyDict)) :=
  [ (pys "product",
      [ (pys "macbook_pro",
          [ (pys "name", .s (pys "EcoBook Pro 2023")),
            (pys "manufacturer", .s (pys "GreenTech Inc.")),
            (pys "totalFootprint", .num 1853 1),
            (pys "footprintBreakdown", .dict
              [ (pys "manufacturing", .num 1428 1),
                (pys "transportation", .num 125 1),
                (pys "usage", .num 300 1),
                (pys "endOfLife", .num 0 1) ]),
            (pys "certifications", .list
              [ .s (pys "Carbon Trust"), .s (pys "Energy Star"), .s (pys "EPEAT Gold") ]),
            (pys "methodology", .s (pys "ISO 14067 / GHG Protocol")),
            (pys "verificationBody", .s (pys "ClimateVerify Alliance")),
            (pys "verificationDate", .s (pys "2023-07-15")) ]),
        (pys "sustainable_blend",
          [ (pys "name", .s (pys "Sustainable Blend Coffee")),
            (pys "manufacturer", .s (pys "EcoBeans Co.")),
            (pys "totalFootprint", .num 15 2),
            (pys "footprintBreakdown", .dict
              [ (pys "farming", .num 5 2),
                (pys "processing", .num 3 2),
                (pys "packaging", .num 2 2),
                (pys "transportation", .num 4 2),
                (pys "preparation", .num 1 2) ]),
            (pys "offsetting", .s (pys "100% offset through verified reforestation projects")),
            (pys "certifications", .list
              [ .s (pys "Rainforest Alliance"), .s (pys "Carbon Neutral Product") ]),
            (pys "methodology", .s (pys "PAS 2050")),
            (pys "verificationBody", .s (pys "GreenCertify DAO")),
            (pys "verificationDate", .s (pys "2023-08-10")) ]) ]),
    (pys "company",
      [ (pys "greencorp",
          [ (pys "name", .s (pys "GreenCorp Technologies")),
            (pys "industry", .s (pys "Technology")),
            (pys "totalEmissions", .num 125000 1),
            (pys "emissionsBreakdown", .dict
              [ (pys "scope1", .num 20000 1),
                (pys "scope2", .num 80000 1),
                (pys "scope3", .num 25000 1) ]),
            (pys "reductionTarget", .s (pys "50% by 2030, Net Zero by 2040")),
            (pys "verificationStandard", .s (pys "GHG Protocol Corporate Standard")),
            (pys "verifier", .s (pys "ClimateAccounting Consortium")),
            (pys "verificationDate", .s (pys "2023-04-20")) ]),
        (pys "fashion_forward",
          [ (pys "name", .s (pys "FashionX Sustainable Apparel")),
            (pys "industry", .s (pys "Fashion")),
            (pys "totalEmissions", .num 187000 1),
            (pys "emissionsBreakdown", .dict
              [ (pys "scope1", .num 12000 1),
                (pys "scope2", .num 45000 1),
                (pys "scope3", .num 130000 1) ]),
            (pys "reductionActions", .list
              [ .s (pys "100% renewable energy in owned facilities"),
                .s (pys "Sustainable materials sourcing"),
                .s (pys "Supply chain optimization") ]),
            (pys "reductionTarget", .s (pys "Net Zero by 2035")),
            (pys "verificationStandard", .s (pys "Science Based Targets initiative (SBTi)")),
            (pys "verifier", .s (pys "SustainableVerify Network")),
            (pys "verificationDate", .s (pys "2023-03-15")) ]) ]),
    (pys "activity",
      [ (pys "london_nyc_flight",
          [ (pys "type", .s (pys "Flight")),
            (pys "route", .s (pys "London to New York (economy)")),
            (pys "distance", pyInt 5585),
            (pys "footprint", .num 9860 1),
            (pys "calculationMethod", .s (pys "DEFRA 2023 emission factors")),
            (pys "verifier", .s (pys "TravelImpact Verifiers")),
            (pys "offsetOptions", .list
              [ .dict [ (pys "project", .s (pys "Wind Energy India")),
                        (pys "cost", .s (pys "€12.50")) ],
                .dict [ (pys "project", .s (pys "Reforestation Brazil")),
                        (pys "cost", .s (pys "€15.75")) ] ]) ]),
        (pys "california_electricity",
          [ (pys "type", .s (pys "Electricity Consumption")),
            (pys "location", .s (pys "California, USA")),
            (pys "amount", pyInt 1000),
            (pys "footprint", .num 2100 1),
            (pys "gridMix", .dict
              [ (pys "renewable", .num 330 1),
                (pys "natural_gas", .num 400 1),
                (pys "nuclear", .num 150 1),
                (pys "coal", .num 100 1),
                (pys "other", .num 20 1) ]),
            (pys "calculationMethod", .s (pys "eGRID 2022 (location-based)")),
            (pys "verifier", .s (pys "GridImpact Alliance")),
            (pys "verificationDate", .s (pys "2023-02-10")) ]) ]) ]

/-- Indexing of the carbon store by scope (the three scope keys always exist). -/
def scopeRecords (scope : PyStr) : List (PyStr × PyDict) :=
  (alookup scope simulated_carbon_data).getD []

/-- The `requested_scope` parse of `fetch_carbon_footprint` (substring checks
on `query_details`, in the order company, product, activity). -/
def requestedScope (query_details : Option PyStr) : Option PyStr :=
  match query_details with
  | none => none
  | some q =>
    if !q.isEmpty then
      if pys "scope=company" <:+: q then some (pys "company")
      else if pys "scope=product" <:+: q then some (pys "product")
      else if pys "scope=activity" <:+: q then some (pys "activity")
      else none
    else none

/-- The `detected_scope` scan: first scope in the fixed order
product, company, activity whose record set contains the identifier. -/
def detectedScope (nid : PyStr) : Option PyStr :=
  List.find? (fun scope => (alookup nid (scopeRecords scope)).isSome)
    [pys "product", pys "company", pys "activity"]

/-- The `data_scope` decision of `fetch_carbon_footprint` (default `product`,
overridden by the detected scope, overridden by a requested scope that
contains the identifier). -/
def dataScope (nid : PyStr) (query_details : Option PyStr) : PyStr :=
  match requestedScope query_details with
  | some rs =>
    if (alookup nid (scopeRecords rs)).isSome then rs
    else
      match detectedScope nid with
      | some d => d
      | none => pys "product"
  | none =>
    match detectedScope nid with
    | some d => d
    | none => pys "product"

/-- Embedding of `fetch_carbon_footprint` of `carbon_footprint.py`. -/
def fetch_carbon_footprint (identifier : PyStr) (query_details : Option PyStr)
    (timestamp : PyStr) (sha256hex : PyDict → PyStr) (cache : Cache) (now : Nat) :
    Envelope × Cache :=
  let nid := normalize_carbon_identifier identifier
  let requested := requestedScope query_details
  let detected := detectedScope nid
  let data_scope := dataScope nid query_details
  let cache_key := pys "carbon_" ++ data_scope ++ pys "_" ++ nid
  let r := cacheStep cache cache_key now (alookup nid (scopeRecords data_scope))
  let error_msg : PyStr :=
    match requested with
    | some rs => pys "No carbon footprint information found for " ++ rs ++
        pys " identifier " ++ squo ++ identifier ++ squo ++ pys "."
    | none =>
      match detected with
      | none => pys "No carbon footprint information found for identifier " ++ squo ++
          identifier ++ squo ++ pys " in any scope (" ++
          joinComma [pys "product", pys "company", pys "activity"] ++ pys ")."
      | some ds => pys "Error retrieving carbon footprint information for " ++ ds ++
          pys " " ++ squo ++ identifier ++ squo ++ pys "."
  let errorEnv : Envelope :=
    { request_data_type := pys "carbon_footprint"
      request_identifier := identifier
      source_description := some (pys "Carbon Footprint Verification Network")
      timestamp := some timestamp
      data_payload := some []
      verification_summary := some (pys "No carbon footprint data found.")
      error_message := some error_msg }
  match r.1 with
  | some d =>
    if !d.isEmpty then
      let verification_proof : PyVal := .dict
        [ (pys "method", .s (pys "Multi-Attestation Protocol")),
          (pys "hash", .s (sha256hex d)),
          (pys "timestamp", .s timestamp) ]
      let data_payload : PyDict :=
        if data_scope = pys "product" then
          [ (pys "productInfo", .dict
              [ (pys "name", pyGet d (pys "name")),
                (pys "manufacturer", pyGet d (pys "manufacturer")) ]),
            (pys "carbonFootprint", .dict
              [ (pys "total", pyGet d (pys "totalFootprint")),
                (pys "unit", .s (pys "kg CO2e")),
                (pys "breakdown", pyGet d (pys "footprintBreakdown")) ]),
            (pys "certifications", pyGetD d (pys "certifications") (.list [])),
            (pys "verification", .dict
              [ (pys "methodology", pyGetD d (pys "methodology") (.s [])),
                (pys "verifier", pyGetD d (pys "verificationBody") (.s [])),
                (pys "date", pyGetD d (pys "verificationDate") (.s [])),
                (pys "proof", verification_proof) ]) ]
        else if data_scope = pys "company" then
          [ (pys "companyInfo", .dict
              [ (pys "name", pyGet d (pys "name")),
                (pys "industry", pyGet d (pys "industry")) ]),
            (pys "emissions", .dict
              [ (pys "total", pyGet d (pys "totalEmissions")),
                (pys "unit", .s (pys "metric tons CO2e")),
                (pys "breakdown", pyGet d (pys "emissionsBreakdown")) ]),
            (pys "targets", pyGetD d (pys "reductionTarget") (.s [])),
            (pys "verification", .dict
              [ (pys "standard", pyGetD d (pys "verificationStandard") (.s [])),
                (pys "verifier", pyGetD d (pys "verifier") (.s [])),
                (pys "date", pyGetD d (pys "verificationDate") (.s [])),
                (pys "proof", verification_proof) ]) ]
        else
          [ (pys "activityInfo", .dict
              [ (pys "type", pyGet d (pys "type")),
                (pys "details", pyOr (pyGetD d (pys "route") (.s []))
                  (pyGetD d (pys "location") (.s []))) ]),
            (pys "carbonFootprint", .dict
              [ (pys "total", pyGet d (pys "footprint")),
                (pys "unit", .s (pys "kg CO2e")),
                (pys "distance", pyGetD d (pys "distance") .null),
                (pys "amount", pyGetD d (pys "amount") .null) ]),
            (pys "methodology", pyGetD d (pys "calculationMethod") (.s [])),
            (pys "verification", .dict
              [ (pys "verifier", pyGetD d (pys "verifier") (.s [])),
                (pys "date", pyGetD d (pys "verificationDate") (.s [])),
                (pys "proof", verification_proof) ]) ]
      ({ request_data_type := pys "carbon_footprint"
         request_identifier := identifier
         source_description := some (pys "Verified Carbon Accounting Network")
         timestamp := some timestamp
         data_payload := some data_payload
         verification_summary := some (pys "Carbon footprint data verified following " ++
           pyStrOf (pyGetD d (pys "methodology")
             (pyGetD d (pys "verificationStandard") (.s (pys "international standards")))) ++
           pys " by " ++
           pyStrOf (pyGetD d (pys "verificationBody")
             (pyGetD d (pys "verifier") (.s (pys "accredited verifier")))) ++ pys ".")
         error_message := none }, r.2)
    else (errorEnv, r.2)
  | none => (errorEnv, r.2)

/-! ## reputation_score.py -/

/-- The alias table of `normalize_reputation_identifier` (keyed on the
already-lowercased identifier). -/
def name_mappings : List (PyStr × PyStr) :=
  [ (pys "decentragov_dao", pys "decentra_dao"),
    (pys "decentragov", pys "decentra_dao"),
    (pys "decentra_gov_dao", pys "decentra_dao"),
    (pys "decentrag_dao", pys "decentra_dao"),
    (pys "alex_rodriguez", pys "alex_developer"),
    (pys "alex", pys "alex_developer"),
    (pys "rodriguez", pys "alex_developer") ]

/-- Embedding of `normalize_reputation_identifier`: lowercase, then the alias table, the
lowercased identifier itself when unmapped; empty input returned unchanged. -/
def normalize_reputation_identifier (identifier : PyStr) : PyStr :=
  if identifier.isEmpty then identifier
  else (alookup (pyLower identifier) name_mappings).getD (pyLower identifier)

/-- The static reputation store of `reputation_score.py`:
entity, then aspect, then the record. -/
def simulated_reputation_data : List (PyStr × List (PyStr × PyDict)) :=
  [ (pys "alex_developer",
      [ (pys "general",
          [ (pys "name", .s (pys "Alex Rodriguez")),
            (pys "did", .s (pys "did:fetch:alex_developer")),
            (pys "overallScore", pyInt 92),
            (pys "activeScoreProof", .s (pys "bafybeigdyrzt5sfp7udm7hu76uh7y26nf3efuylqabf3oclgtqy55fbzdi")),
            (pys "contributionStats", .dict
              [ (pys "totalContributions", pyInt 215),
                (pys "projectsContributed", pyInt 12),
                (pys "firstContribution", .s (pys "2021-02-18")) ]),
            (pys "reputationBreakdown", .dict
              [ (pys "codeQuality", pyInt 95),
                (pys "projectCompletion", pyInt 90),
                (pys "communityEngagement", pyInt 88),
                (pys "documentation", pyInt 85) ]),
            (pys "topSkills", .list
              [ .s (pys "Rust"), .s (pys "Smart Contracts"), .s (pys "Agent Development") ]),
            (pys "verificationMethod", .s (pys "Multi-Source Attestation")),
            (pys "attesters", .list
              [ .s (pys "GitHub"), .s (pys "Fetch.ai Network"), .s (pys "DevDAO") ]) ]),
        (pys "developer",
          [ (pys "name", .s (pys "Alex Rodriguez")),
            (pys "did", .s (pys "did:fetch:alex_developer")),
            (pys "developerScore", pyInt 95),
            (pys "codeStats", .dict
              [ (pys "repositories", pyInt 32),
                (pys "pullRequests", pyInt 287),
                (pys "codeReviews", pyInt 342),
                (pys "issuesClosed", pyInt 156) ]),
            (pys "languages", .list
              [ .dict [ (pys "name", .s (pys "Rust")), (pys "proficiency", pyInt 98) ],
                .dict [ (pys "name", .s (pys "Python")), (pys "proficiency", pyInt 92) ],
                .dict [ (pys "name", .s (pys "Solidity")), (pys "proficiency", pyInt 88) ] ]),
            (pys "significantProjects", .list
              [ .dict [ (pys "name", .s (pys "Agent Framework Extension")),
                        (pys "role", .s (pys "Lead Developer")),
                        (pys "impact", .s (pys "High")) ],
                .dict [ (pys "name", .s (pys "Smart Contract Auditing Tool")),
                        (pys "role", .s (pys "Contributor")),
                        (pys "impact", .s (pys "Medium")) ] ]),
            (pys "verificationMethod", .s (pys "Code Repository Analysis + Peer Attestation")),
            (pys "attesters", .list
              [ .s (pys "GitHub"), .s (pys "GitLab"), .s (pys "Code Review DAO") ]) ]) ]),
    (pys "decentra_dao",
      [ (pys "general",
          [ (pys "name", .s (pys "DecentraGov DAO")),
            (pys "did", .s (pys "did:fetch:decentra_dao")),
            (pys "overallScore", pyInt 89),
            (pys "activeScoreProof", .s (pys "bafybeihkqhjuk6bnlr6xmqkxheh4oewvqllzwgv3vdgdsfyqgd6d2hld7e")),
            (pys "governanceStats", .dict
              [ (pys "members", pyInt 1250),
                (pys "proposalsCreated", pyInt 87),
                (pys "votingParticipation", .s (pys "68%")),
                (pys "treasurySize", .s (pys "485,000 USDC")) ]),
            (pys "reputationBreakdown", .dict
              [ (pys "transparency", pyInt 94),
                (pys "proposalExecution", pyInt 87),
                (pys "communityEngagement", pyInt 91),
                (pys "fundManagement", pyInt 85) ]),
            (pys "verificationMethod", .s (pys "On-Chain Governance Analysis")),
            (pys "attesters", .list
              [ .s (pys "DAOstats"), .s (pys "Governance Observer"),
                .s (pys "Blockchain Analytics Network") ]) ]),
        (pys "contributor",
          [ (pys "name", .s (pys "DecentraGov DAO")),
            (pys "did", .s (pys "did:fetch:decentra_dao")),
            (pys "contributorReputation", pyInt 91),
            (pys "contributionStats", .dict
              [ (pys "activeDuration", .s (pys "2.5 years")),
                (pys "contributorsReward", .s (pys "Fair (verified)")),
                (pys "onboardingQuality", .s (pys "Excellent")),
                (pys "retentionRate", .s (pys "78%")) ]),
            (pys "significantContributions", .list
              [ .dict [ (pys "name", .s (pys "Open Source AI Model")),
                        (pys "type", .s (pys "Technology")),
                        (pys "impact", .s (pys "High")) ],
                .dict [ (pys "name", .s (pys "Governance Framework")),
                        (pys "type", .s (pys "Protocol")),
                        (pys "impact", .s (pys "Medium")) ] ]),
            (pys "verificationMethod", .s (pys "Contributor Experience Verification")),
            (pys "attesters", .list
              [ .s (pys "ContributorBoard"), .s (pys "WorkDAO"),
                .s (pys "Open Source Alliance") ]) ]) ]),
    (pys "trustdata_service",
      [ (pys "general",
          [ (pys "name", .s (pys "TrustData Verification Service")),
            (pys "did", .s (pys "did:fetch:trustdata_service")),
            (pys "overallScore", pyInt 96),
            (pys "activeScoreProof", .s (pys "bafybeiczsscdsbs7ffqz55asqdf3smv6klcw3gofszvwlyarci47bgf354")),
            (pys "serviceStats", .dict
              [ (pys "uptime", .s (pys "99.98%")),
                (pys "users", pyInt 12850),
                (pys "launchDate", .s (pys "2022-05-15")),
                (pys "verifiedTransactions", pyInt 1287650) ]),
            (pys "reputationBreakdown", .dict
              [ (pys "reliability", pyInt 98),
                (pys "accuracy", pyInt 97),
                (pys "security", pyInt 95),
                (pys "support", pyInt 92) ]),
            (pys "verificationMethod", .s (pys "Service Quality Attestation")),
            (pys "attesters", .list
              [ .s (pys "ServiceRating DAO"), .s (pys "User Feedback Oracle"),
                .s (pys "Security Audit Collective") ]) ]),
        (pys "service",
          [ (pys "name", .s (pys "TrustData Verification Service")),
            (pys "did", .s (pys "did:fetch:trustdata_service")),
            (pys "serviceScore", pyInt 97),
            (pys "performanceMetrics", .dict
              [ (pys "responseTime", .s (pys "0.3 seconds (avg)")),
                (pys "dataAccuracy", .s (pys "99.7%")),
                (pys "costEfficiency", .s (pys "High")),
                (pys "securityIncidents", .s (pys "None (verified)")) ]),
            (pys "complianceCertifications", .list
              [ .s (pys "ISO 27001"), .s (pys "GDPR Compliant"), .s (pys "SOC 2") ]),
            (pys "customerSatisfaction", .s (pys "4.8/5.0 (based on 825 verified reviews)")),
            (pys "verificationMethod", .s (pys "Independent Service Auditing")),
            (pys "attesters", .list
              [ .s (pys "TechAudit Alliance"), .s (pys "User Satisfaction Oracle"),
                .s (pys "Compliance Verification Network") ]) ]) ]) ]

/-- The `requested_aspect` parse of `fetch_reputation_score` (substring checks
on `query_details`, in the order developer, contributor, service). -/
def requestedAspect (query_details : Option PyStr) : Option PyStr :=
  match query_details with
  | none => none
  | some q =>
    if !q.isEmpty then
      if pys "aspect=developer" <:+: q then some (pys "developer")
      else if pys "aspect=contributor" <:+: q then some (pys "contributor")
      else if pys "aspect=service" <:+: q then some (pys "service")
      else none
    else none

/-- The aspect-heuristic chain of `fetch_reputation_score` when no requested
aspect applies: capital-cased substring tests against the lowercased
normalized identifier, then the `dev`/`svc` startswith rules, then
`general`. -/
def selectAspectHeuristic (available_aspects : List PyStr) (nid : PyStr) : PyStr :=
  if pys "developer" ∈ available_aspects ∧ pys "Developer" <:+: pyLower nid then pys "developer"
  else if pys "service" ∈ available_aspects ∧ pys "Service" <:+: pyLower nid then pys "service"
  else if pys "contributor" ∈ available_aspects ∧ pys "DAO" <:+: pyLower nid then pys "contributor"
  else if pys "dev" <+: nid ∧ pys "developer" ∈ available_aspects then pys "developer"
  else if pys "svc" <+: nid ∧ pys "service" ∈ available_aspects then pys "service"
  else pys "general"

/-- The complete `reputation_aspect` decision: a requested aspect that is
available wins, otherwise the heuristic chain. -/
def selectAspect (requested : Option PyStr) (available_aspects : List PyStr) (nid : PyStr) :
    PyStr :=
  match requested with
  | some a => if a ∈ available_aspects then a else selectAspectHeuristic available_aspects nid
  | none => selectAspectHeuristic available_aspects nid

/-- Comma-join of a list-of-strings value (the `attesters` field). -/
def joinStrList (v : PyVal) : PyStr :=
  match v with
  | .list vs => joinComma (vs.map pyStrOf)
  | _ => []

/-- Embedding of `fetch_reputation_score` of `reputation_score.py`. -/
def fetch_reputation_score (identifier : PyStr) (query_details : Option PyStr)
    (timestamp : PyStr) (cache : Cache) (now : Nat) : Envelope × Cache :=
  let nid := normalize_reputation_identifier identifier
  match alookup nid simulated_reputation_data with
  | none =>
      ({ request_data_type := pys "reputation_score"
         request_identifier := identifier
         source_description := some (pys "Decentralized Reputation Network")
         timestamp := some timestamp
         data_payload := some []
         verification_summary := some (pys "No reputation data found for this identifier.")
         error_message := some (pys "No reputation information found for identifier " ++
           squo ++ identifier ++ squo ++ pys ".") }, cache)
  | some entity =>
    let requested := requestedAspect query_details
    let available_aspects := entity.map Prod.fst
    let reputation_aspect := selectAspect requested available_aspects nid
    let cache_key := pys "reputation_" ++ nid ++ pys "_" ++ reputation_aspect
    let recompute : Option PyDict × Cache :=
      match alookup reputation_aspect entity with
      | some rcd => (some rcd, if !rcd.isEmpty then setKey cache cache_key ⟨rcd, now⟩ else cache)
      | none => (none, cache)
    let r : Option PyDict × Cache :=
      match alookup cache_key cache with
      | some e =>
          if now - e.cached_at < CACHE_EXPIRY_SECONDS then (some e.data, cache) else recompute
      | none => recompute
    let aspectErrorEnv : Envelope :=
      { request_data_type := pys "reputation_score"
        request_identifier := identifier
        source_description := some (pys "Decentralized Reputation Network")
        timestamp := some timestamp
        data_payload := some []
        verification_summary := some (pys "No reputation data found for aspect " ++ squo ++
          reputation_aspect ++ squo ++ pys ".")
        error_message := some (pys "No reputation information found for identifier " ++ squo ++
          identifier ++ squo ++ pys " with aspect " ++ squo ++ reputation_aspect ++ squo ++
          pys ". Available aspects: " ++ joinComma available_aspects ++ pys ".") }
    match r.1 with
    | some rd =>
      if !rd.isEmpty then
        ({ request_data_type := pys "reputation_score"
           request_identifier := identifier
           source_description := some (pys "Decentralized Reputation Network")
           timestamp := some timestamp
           data_payload := some
             [ (pys "entityInfo", .dict
                 [ (pys "name", pyGet rd (pys "name")),
                   (pys "decentralizedId", pyGet rd (pys "did")) ]),
               (pys "reputationScores", .dict
                 [ (pys "overall", pyOr (pyGet rd (pys "overallScore"))
                     (pyOr (pyGet rd (pys "developerScore"))
                       (pyOr (pyGet rd (pys "contributorReputation"))
                         (pyGet rd (pys "serviceScore"))))),
                   (pys "breakdown", pyGetD rd (pys "reputationBreakdown") (.dict [])) ]),
               (pys "statistics", pyOr (pyGet rd (pys "contributionStats"))
                 (pyOr (pyGet rd (pys "codeStats"))
                   (pyOr (pyGet rd (pys "governanceStats"))
                     (pyOr (pyGet rd (pys "contributionStats"))
                       (pyOr (pyGet rd (pys "serviceStats"))
                         (pyGetD rd (pys "performanceMetrics") (.dict []))))))),
               (pys "highlights", pyOr (pyGet rd (pys "topSkills"))
                 (pyOr (pyGet rd (pys "significantProjects"))
                   (pyOr (pyGet rd (pys "significantContributions"))
                     (pyGetD rd (pys "complianceCertifications") (.list []))))),
               (pys "verification", .dict
                 [ (pys "method", pyGet rd (pys "verificationMethod")),
                   (pys "attesters", pyGet rd (pys "attesters")),
                   (pys "proofReference", pyGetD rd (pys "activeScoreProof") (.s [])),
                   (pys "timestamp", .s timestamp) ]) ]
           verification_summary := some (pys "Reputation data verified through " ++
             pyStrOf (pyGet rd (pys "verificationMethod")) ++
             pys " with attestations from " ++
             joinStrList (pyGet rd (pys "attesters")) ++ pys ".")
           error_message := none }, r.2)
      else (aspectErrorEnv, r.2)
    | none => (aspectErrorEnv, r.2)

/-! ## data_source_handler.py -/

/-- Outcome of the single CoinGecko HTTP attempt, the one external
collaborator.  `ok` carries the parsed JSON body in the shape the code reads
(`{identifier: {currency: price}}`) together with `bodyText`, the Python
`repr` of the body that the not-found message interpolates; the other
constructors carry the exception data surfaced verbatim into
`error_message`. -/
inductive UpstreamResult where
  | ok (body : List (PyStr × PyDict)) (bodyText : PyStr)
  | httpStatusError (status : Nat) (text : PyStr)
  | requestError (msg : PyStr)
  | unexpectedError (msg : PyStr)

/-- Embedding of `fetch_crypto_price` of `data_source_handler.py` (one upstream attempt,
no retry; every failure is encoded in `error_message`). -/
def fetch_crypto_price (identifier : PyStr) (query_details : Option PyStr)
    (timestamp : PyStr) (upstream : UpstreamResult) : Envelope :=
  let vs_currency : PyStr :=
    match query_details with
    | some q =>
      if !q.isEmpty ∧ pys "vs_currency=" <:+: q then afterLast (pys "vs_currency=") q
      else pys "usd"
    | none => pys "usd"
  match upstream with
  | .ok api_data bodyText =>
    match alookup identifier api_data with
    | some inner =>
      match alookup vs_currency inner with
      | some price =>
          { request_data_type := pys "crypto_price"
            request_identifier := identifier
            source_description := some (pys "CoinGecko API (https://www.coingecko.com/en/api)")
            timestamp := some timestamp
            data_payload := some
              [ (pys "price", price),
                (pys "currency", .s vs_currency),
                (pys "asset_id", .s identifier) ]
            verification_summary := some (pys "Data fetched live from CoinGecko API. Accuracy subject to API provider.")
            error_message := none }
      | none =>
          { request_data_type := pys "crypto_price"
            request_identifier := identifier
            source_description := some (pys "CoinGecko API")
            timestamp := some timestamp
            data_payload := some []
            verification_summary := some (pys "Data source did not return expected format or identifier not found.")
            error_message := some (pys "Data not found for identifier " ++ squo ++ identifier ++
              squo ++ pys " with currency " ++ squo ++ vs_currency ++ squo ++
              pys " from CoinGecko. Response: " ++ bodyText) }
    | none =>
        { request_data_type := pys "crypto_price"
          request_identifier := identifier
          source_description := some (pys "CoinGecko API")
          timestamp := some timestamp
          data_payload := some []
          verification_summary := some (pys "Data source did not return expected format or identifier not found.")
          error_message := some (pys "Data not found for identifier " ++ squo ++ identifier ++
            squo ++ pys " with currency " ++ squo ++ vs_currency ++ squo ++
            pys " from CoinGecko. Response: " ++ bodyText) }
  | .httpStatusError status text =>
      { request_data_type := pys "crypto_price"
        request_identifier := identifier
        source_description := some (pys "CoinGecko API")
        timestamp := some timestamp
        data_payload := some []
        verification_summary := some (pys "Error communicating with data source.")
        error_message := some (pys "HTTP error fetching data from CoinGecko: " ++
          natStr status ++ pys " - " ++ text) }
  | .requestError msg =>
      { request_data_type := pys "crypto_price"
        request_identifier := identifier
        source_description := some (pys "CoinGecko API")
        timestamp := some timestamp
        data_payload := some []
        verification_summary := some (pys "Error communicating with data source.")
        error_message := some (pys "Request error fetching data from CoinGecko: " ++ msg) }
  | .unexpectedError msg =>
      { request_data_type := pys "crypto_price"
        request_identifier := identifier
        source_description := some (pys "CoinGecko API")
        timestamp := some timestamp
        data_payload := some []
        verification_summary := some (pys "An unexpected error occurred.")
        error_message := some (pys "An unexpected error occurred while fetching data: " ++ msg) }

/-- The four per-domain global caches. -/
structure Caches where
  education : Cache
  supply : Cache
  carbon : Cache
  reputation : Cache

/-- The `error_message` of the unsupported-`data_type` envelope. -/
def unsupportedMessage (data_type : PyStr) : PyStr :=
  pys "Unsupported data_type: " ++ squo ++ data_type ++ squo ++
  pys ". Supported types: " ++ squo ++ pys "crypto_price" ++ squo ++ pys ", " ++
  squo ++ pys "education_credential" ++ squo ++ pys ", " ++
  squo ++ pys "supply_chain_status" ++ squo ++ pys ", " ++
  squo ++ pys "carbon_footprint" ++ squo ++ pys ", " ++
  squo ++ pys "reputation_score" ++ squo ++ pys "."

/-- Embedding of `fetch_verifiable_data` of `data_source_handler.py`: the Fetch Router.
Dispatches on the lowercased `data_type`; an unrecognized type yields the
fixed unsupported envelope and raises nothing. -/
def fetch_verifiable_data (data_type identifier : PyStr) (query_details : Option PyStr)
    (timestamp : PyStr) (sha256hex : PyDict → PyStr) (upstream : UpstreamResult)
    (caches : Caches) (now : Nat) : Envelope × Caches :=
  if pyLower data_type = pys "crypto_price" then
    (fetch_crypto_price identifier query_details timestamp upstream, caches)
  else if pyLower data_type = pys "education_credential" then
    let r := fetch_education_credential identifier query_details timestamp sha256hex
      caches.education now
    (r.1, { caches with education := r.2 })
  else if pyLower data_type = pys "supply_chain_status" then
    let r := fetch_supply_chain_status identifier query_details timestamp sha256hex
      caches.supply now
    (r.1, { caches with supply := r.2 })
  else if pyLower data_type = pys "carbon_footprint" then
    let r := fetch_carbon_footprint identifier query_details timestamp sha256hex
      caches.carbon now
    (r.1, { caches with carbon := r.2 })
  else if pyLower data_type = pys "reputation_score" then
    let r := fetch_reputation_score identifier query_details timestamp caches.reputation now
    (r.1, { caches with reputation := r.2 })
  else
    ({ request_data_type := data_type
       request_identifier := identifier
       source_description := some (pys "Data Handler System")
       timestamp := some timestamp
       data_payload := some []
       verification_summary := some (pys "Data type not supported by this handler.")
       error_message := some (unsupportedMessage data_type) }, caches)

/-! ## chat_protocol_integration.py and main_agent.py -/

/-- Embedding of `normalize_identifier` of `chat_protocol_integration.py` (used only by the
chat-layer helper `process_verifiable_data_request`, not by the router path). -/
def normalize_identifier (identifier : PyStr) (data_type : PyStr) : PyStr :=
  if identifier.isEmpty then identifier
  else if data_type = pys "education_credential" then
    pySpaceToUnderscore (pyLower identifier)
  else if data_type = pys "reputation_score" then
    normalize_reputation_identifier identifier
  else identifier

/-- The `VerifiableDataResponse` model of `models.py`. -/
structure VerifiableDataResponse where
  session_id : PyStr
  request_data_type : PyStr
  request_identifier : PyStr
  source_description : Option PyStr
  timestamp : Option PyStr
  data_payload : Option PyDict
  verification_summary : Option PyStr
  error_message : Option PyStr

/-- The `ErrorMessage` model of `models.py`. -/
structure ErrMessage where
  session_id : PyStr
  error : PyStr

/-- The fixed Error Report block of `format_response_for_chat`. -/
def errorReportText (msg : PyStr) : PyStr :=
  pys "# Error Report\n**Message:** " ++ msg ++
  pys "\n\n_Please try again or rephrase your request._"

/-- Truthiness of an optional string field (`None` and `""` are falsy). -/
def truthyOptStr : Option PyStr → Bool
  | none => false
  | some m => !m.isEmpty

/-- Embedding of `format_response_for_chat` of `chat_protocol_integration.py`.  A truthy
`error_message` returns the fixed Error Report block before anything else is
read; the large success branch (lines 200-436, timestamp re-formatting and the
five per-type renderers) returns `render response_data` and is abstracted as
the parameter `render`, which the error-path properties quantify over. -/
def format_response_for_chat (render : VerifiableDataResponse → PyStr)
    (response_data : VerifiableDataResponse) : PyStr :=
  if truthyOptStr response_data.error_message then
    errorReportText (response_data.error_message.getD [])
  else render response_data

/-- The message handled by `handle_internal_response` of `main_agent.py`:
either a `VerifiableDataResponse` or an `ErrorMessage` (the only two model
types registered for the handler). -/
inductive InternalResponse where
  | resp (r : VerifiableDataResponse)
  | err (e : ErrMessage)

/-- The `session_id` of either message shape. -/
def sessionOf : InternalResponse → PyStr
  | .resp r => r.session_id
  | .err e => e.session_id

/-- The `VerifiableDataResponse` that `handle_internal_response` builds so the
Formatter can render an `ErrorMessage`. -/
def errEnvelope (e : ErrMessage) : VerifiableDataResponse :=
  { session_id := e.session_id
    request_data_type := pys "error_report"
    request_identifier := pys "unknown_request_due_to_error"
    source_description := none
    timestamp := none
    data_payload := none
    verification_summary := none
    error_message := some e.error }

/-- Embedding of `handle_internal_response` of `main_agent.py`.  The `storage` map is the session
store (`ctx.storage`) binding session ids to originating addresses; the result
is the outbound send `some (address, formatted text)`, or `none` when the
completion is dropped (missing session id, no binding, or a falsy bound
address). -/
def handle_internal_response (render : VerifiableDataResponse → PyStr)
    (storage : List (PyStr × PyStr)) (response : InternalResponse) :
    Option (PyStr × PyStr) :=
  if (sessionOf response).isEmpty then none
  else
    match alookup (sessionOf response) storage with
    | none => none
    | some addr =>
      if addr.isEmpty then none
      else
        some (addr,
          match response with
          | .resp r => format_response_for_chat render r
          | .err e => format_response_for_chat render (errEnvelope e))

/-! ## Specification-side definitions (written from the claims, to be compared
with the source embeddings above) -/

/-- Claim side: the first scope in a fixed order whose record set contains the
identifier. -/
def firstScopeContaining (nid : PyStr) : List PyStr → Option PyStr
  | [] => none
  | s :: rest =>
    if (alookup nid (scopeRecords s)).isSome then some s else firstScopeContaining nid rest

/-- Claim side: the scope-priority rule exactly as the specification words it:
the requested scope when it contains the identifier, else the first of
product, company, activity containing it, else the default `product`. -/
def scopeChoiceSpec (nid : PyStr) (query_details : Option PyStr) : PyStr :=
  match requestedScope query_details with
  | some rs =>
    if (alookup nid (scopeRecords rs)).isSome then rs
    else (firstScopeContaining nid [pys "product", pys "company", pys "activity"]).getD (pys "product")
  | none =>
    (firstScopeContaining nid [pys "product", pys "company", pys "activity"]).getD (pys "product")

/-- Claim side: the aspect heuristic with the three capital-cased substring
branches deleted — only the `dev`/`svc` startswith rules and the `general`
default remain. -/
def selectAspectHeuristicNoSubstring (available_aspects : List PyStr) (nid : PyStr) : PyStr :=
  if pys "dev" <+: nid ∧ pys "developer" ∈ available_aspects then pys "developer"
  else if pys "svc" <+: nid ∧ pys "service" ∈ available_aspects then pys "service"
  else pys "general"

/-- Claim side: the envelope invariant of C10 — a non-empty verification
summary, the request timestamp, a payload that is always a mapping, a
non-empty error message whenever one is present, and an empty mapping as the
payload of every error envelope. -/
def EnvelopeInv (ts : PyStr) (env : Envelope) : Prop :=
  (∃ s, env.verification_summary = some s ∧ s ≠ []) ∧
  env.timestamp = some ts ∧
  (∃ d, env.data_payload = some d) ∧
  (∀ e, env.error_message = some e → e ≠ []) ∧
  (env.error_message ≠ none → env.data_payload = some [])

/-- The empty cache state of a fresh process. -/
def emptyCaches : Caches := ⟨[], [], [], []⟩

/-! ## Helper lemmas -/

theorem append_ne_nil_left {a b : List Nat} (h : a ≠ []) : a ++ b ≠ [] := by
  intro hc
  rcases List.append_eq_nil.mp hc with ⟨h1, _⟩
  exact h h1

theorem infix_append_right {t rest : PyStr} (h : t <:+: rest) (pre : PyStr) :
    t <:+: pre ++ rest := by
  obtain ⟨s, u, rfl⟩ := h
  exact ⟨pre ++ s, u, by simp⟩

theorem alookup_mem {α : Type} {k : PyStr} {l : List (PyStr × α)} {v : α}
    (h : alookup k l = some v) : v ∈ l.map Prod.snd := by
  induction l with
  | nil => simp [alookup] at h
  | cons p rest ih =>
    rw [alookup] at h
    by_cases hp : p.1 = k
    · simp [hp] at h
      simp [← h]
    · simp [hp] at h
      simp [ih h]

theorem alookup_setKey (c : Cache) (k : PyStr) (e : CacheEntry) :
    alookup k (setKey c k e) = some e := by
  induction c with
  | nil => simp [setKey, alookup]
  | cons p rest ih =>
    rw [setKey]
    by_cases hp : p.1 = k
    · simp [hp, alookup]
    · simp [hp, alookup, ih]

theorem pyLowerChar_idem (c : Nat) : pyLowerChar (pyLowerChar c) = pyLowerChar c := by
  unfold pyLowerChar
  by_cases h : 65 ≤ c ∧ c ≤ 90
  · have h2 : ¬(65 ≤ c + 32 ∧ c + 32 ≤ 90) := by omega
    simp [h, h2]
    omega
  · simp [h]

theorem pyLower_idem (x : PyStr) : pyLower (pyLower x) = pyLower x := by
  unfold pyLower
  rw [List.map_map]
  have h : pyLowerChar ∘ pyLowerChar = pyLowerChar := funext pyLowerChar_idem
  rw [h]

theorem pyLower_isEmpty (x : PyStr) : (pyLower x).isEmpty = x.isEmpty := by
  cases x <;> rfl

theorem upper_not_mem_pyLower (s : PyStr) (c : Nat) (h1 : 65 ≤ c) (h2 : c ≤ 90) :
    c ∉ pyLower s := by
  intro hm
  unfold pyLower at hm
  obtain ⟨a, _, ha⟩ := List.mem_map.mp hm
  unfold pyLowerChar at ha
  split at ha <;> omega

theorem capitalized_not_infix_lower (t : PyStr) (c : Nat) (hc : c ∈ t)
    (h1 : 65 ≤ c) (h2 : c ≤ 90) (s : PyStr) : ¬ t <:+: pyLower s := by
  intro h
  exact upper_not_mem_pyLower s c h1 h2 (h.subset hc)

theorem envelopeInv_of {ts rd ri : PyStr} {sd : Option PyStr} {d : PyDict} {s : PyStr}
    {e : Option PyStr} (hs : s ≠ []) (he : ∀ m, e = some m → m ≠ [])
    (hd : e ≠ none → d = []) :
    EnvelopeInv ts
      { request_data_type := rd, request_identifier := ri, source_description := sd,
        timestamp := some ts, data_payload := some d, verification_summary := some s,
        error_message := e } := by
  refine ⟨⟨s, rfl, hs⟩, rfl, ⟨d, rfl⟩, ?_, ?_⟩
  · intro m hm
    exact he m hm
  · intro h
    rw [hd h]

theorem edu_envelope_inv (identifier : PyStr) (qd : Option PyStr) (ts : PyStr)
    (sha : PyDict → PyStr) (cache : Cache) (now : Nat) :
    EnvelopeInv ts (fetch_education_credential identifier qd ts sha cache now).1 := by
  unfold fetch_education_credential
  dsimp only
  split
  · split
    · exact envelopeInv_of (by decide) (fun m hm => by cases hm) (fun h => absurd rfl h)
    · refine envelopeInv_of (by decide) (fun m hm => ?_) (fun _ => rfl)
      cases hm
      repeat apply append_ne_nil_left
      decide
  · refine envelopeInv_of (by decide) (fun m hm => ?_) (fun _ => rfl)
    cases hm
    repeat apply append_ne_nil_left
    decide

theorem supply_envelope_inv (identifier : PyStr) (qd : Option PyStr) (ts : PyStr)
    (sha : PyDict → PyStr) (cache : Cache) (now : Nat) :
    EnvelopeInv ts (fetch_supply_chain_status identifier qd ts sha cache now).1 := by
  unfold fetch_supply_chain_status
  dsimp only
  split
  · split
    · exact envelopeInv_of (by decide) (fun m hm => by cases hm) (fun h => absurd rfl h)
    · refine envelopeInv_of (by decide) (fun m hm => ?_) (fun _ => rfl)
      cases hm
      repeat apply append_ne_nil_left
      decide
  · refine envelopeInv_of (by decide) (fun m hm => ?_) (fun _ => rfl)
    cases hm
    repeat apply append_ne_nil_left
    decide

theorem carbon_envelope_inv (identifier : PyStr) (qd : Option PyStr) (ts : PyStr)
    (sha : PyDict → PyStr) (cache : Cache) (now : Nat) :
    EnvelopeInv ts (fetch_carbon_footprint identifier qd ts sha cache now).1 := by
  unfold fetch_carbon_footprint
  dsimp only
  split
  · split
    · refine envelopeInv_of ?_ (fun m hm => by cases hm) (fun h => absurd rfl h)
      repeat apply append_ne_nil_left
      decide
    · refine envelopeInv_of (by decide) (fun m hm => ?_) (fun _ => rfl)
      cases hm
      split
      all_goals try split
      all_goals repeat apply append_ne_nil_left
      all_goals decide
  · refine envelopeInv_of (by decide) (fun m hm => ?_) (fun _ => rfl)
    cases hm
    split
    all_goals try split
    all_goals repeat apply append_ne_nil_left
    all_goals decide

theorem reputation_envelope_inv (identifier : PyStr) (qd : Option PyStr) (ts : PyStr)
    (cache : Cache) (now : Nat) :
    EnvelopeInv ts (fetch_reputation_score identifier qd ts cache now).1 := by
  unfold fetch_reputation_score
  dsimp only
  split
  · refine envelopeInv_of (by decide) (fun m hm => ?_) (fun _ => rfl)
    cases hm
    repeat apply append_ne_nil_left
    decide
  · split
    · split
      · refine envelopeInv_of ?_ (fun m hm => by cases hm) (fun h => absurd rfl h)
        repeat apply append_ne_nil_left
        decide
      · refine envelopeInv_of ?_ (fun m hm => ?_) (fun _ => rfl)
        · repeat apply append_ne_nil_left
          decide
        · cases hm
          repeat apply append_ne_nil_left
          decide
    · refine envelopeInv_of ?_ (fun m hm => ?_) (fun _ => rfl)
      · repeat apply append_ne_nil_left
        decide
      · cases hm
        repeat apply append_ne_nil_left
        decide

theorem crypto_envelope_inv (identifier : PyStr) (qd : Option PyStr) (ts : PyStr)
    (upstream : UpstreamResult) :
    EnvelopeInv ts (fetch_crypto_price identifier qd ts upstream) := by
  unfold fetch_crypto_price
  dsimp only
  split
  · split
    · split
      · exact envelopeInv_of (by decide) (fun m hm => by cases hm) (fun h => absurd rfl h)
      · refine envelopeInv_of (by decide) (fun m hm => ?_) (fun _ => rfl)
        cases hm
        repeat apply append_ne_nil_left
        decide
    · refine envelopeInv_of (by decide) (fun m hm => ?_) (fun _ => rfl)
      cases hm
      repeat apply append_ne_nil_left
      decide
  · refine envelopeInv_of (by decide) (fun m hm => ?_) (fun _ => rfl)
    cases hm
    repeat apply append_ne_nil_left
    decide
  · refine envelopeInv_of (by decide) (fun m hm => ?_) (fun _ => rfl)
    cases hm
    repeat apply append_ne_nil_left
    decide
  · refine envelopeInv_of (by decide) (fun m hm => ?_) (fun _ => rfl)
    cases hm
    repeat apply append_ne_nil_left
    decide

/-! ## Claim theorems -/

/-- C10: every envelope returned by `fetch_verifiable_data` — successful or
failed, for any data type, identifier, cache state and upstream outcome —
carries a non-empty verification summary, the request timestamp, and a payload
that is always a mapping; error envelopes carry a non-empty error message
together with the empty mapping as payload (so error message and verification
summary are populated simultaneously). -/
theorem envelope_invariant (data_type identifier : PyStr) (qd : Option PyStr) (ts : PyStr)
    (sha : PyDict → PyStr) (upstream : UpstreamResult) (caches : Caches) (now : Nat) :
    EnvelopeInv ts (fetch_verifiable_data data_type identifier qd ts sha upstream caches now).1 := by
  unfold fetch_verifiable_data
  dsimp only
  split
  · exact crypto_envelope_inv identifier qd ts upstream
  · split
    · exact edu_envelope_inv identifier qd ts sha caches.education now
    · split
      · exact supply_envelope_inv identifier qd ts sha caches.supply now
      · split
        · exact carbon_envelope_inv identifier qd ts sha caches.carbon now
        · split
          · exact reputation_envelope_inv identifier qd ts caches.reputation now
          · refine envelopeInv_of ?_ (fun m hm => ?_) (fun _ => rfl)
            · show pys "Data type not supported by this handler." ≠ []
              decide
            · rw [Option.some_inj] at hm
              subst hm
              unfold unsupportedMessage
              repeat apply append_ne_nil_left
              decide

/-- Witness for C10 at a concrete request. -/
theorem envelope_invariant_witness :
    EnvelopeInv (pys "t")
      (fetch_verifiable_data (pys "carbon_footprint") (pys "macbook_pro") none (pys "t")
        (fun _ => []) (.requestError []) emptyCaches 0).1 :=
  envelope_invariant (pys "carbon_footprint") (pys "macbook_pro") none (pys "t")
    (fun _ => []) (.requestError []) emptyCaches 0

/-- C1: a request whose lowercased data type is none of the five supported
ones returns (never raises) an envelope whose payload is the empty mapping and
whose error message is non-empty and contains all five supported type
names. -/
theorem unsupported_type_error_envelope (data_type identifier : PyStr) (qd : Option PyStr)
    (ts : PyStr) (sha : PyDict → PyStr) (upstream : UpstreamResult) (caches : Caches) (now : Nat)
    (h : pyLower data_type ∉ [pys "crypto_price", pys "education_credential",
      pys "supply_chain_status", pys "carbon_footprint", pys "reputation_score"]) :
    (fetch_verifiable_data data_type identifier qd ts sha upstream caches now).1.data_payload =
      some [] ∧
    (fetch_verifiable_data data_type identifier qd ts sha upstream caches now).1.error_message =
      some (unsupportedMessage data_type) ∧
    unsupportedMessage data_type ≠ [] ∧
    (∀ t ∈ [pys "crypto_price", pys "education_credential", pys "supply_chain_status",
        pys "carbon_footprint", pys "reputation_score"], t <:+: unsupportedMessage data_type) := by
  simp only [List.mem_cons, List.not_mem_nil, or_false, not_or] at h
  obtain ⟨h1, h2, h3, h4, h5⟩ := h
  unfold fetch_verifiable_data
  rw [if_neg h1, if_neg h2, if_neg h3, if_neg h4, if_neg h5]
  refine ⟨rfl, rfl, ?_, ?_⟩
  · unfold unsupportedMessage
    repeat apply append_ne_nil_left
    decide
  · intro t ht
    unfold unsupportedMessage
    simp only [List.append_assoc]
    simp only [List.mem_cons, List.not_mem_nil, or_false] at ht
    rcases ht with rfl | rfl | rfl | rfl | rfl
    all_goals
      apply infix_append_right
      apply infix_append_right
      apply infix_append_right
      decide

/-- Witness for C1 at `data_type="stock_price", identifier="aapl"`. -/
theorem unsupported_type_error_envelope_witness :
    pyLower (pys "stock_price") ∉ [pys "crypto_price", pys "education_credential",
      pys "supply_chain_status", pys "carbon_footprint", pys "reputation_score"] ∧
    ((fetch_verifiable_data (pys "stock_price") (pys "aapl") none (pys "t") (fun _ => [])
        (.requestError []) emptyCaches 0).1.data_payload = some [] ∧
     (fetch_verifiable_data (pys "stock_price") (pys "aapl") none (pys "t") (fun _ => [])
        (.requestError []) emptyCaches 0).1.error_message =
       some (unsupportedMessage (pys "stock_price")) ∧
     unsupportedMessage (pys "stock_price") ≠ [] ∧
     (∀ t ∈ [pys "crypto_price", pys "education_credential", pys "supply_chain_status",
         pys "carbon_footprint", pys "reputation_score"],
       t <:+: unsupportedMessage (pys "stock_price"))) :=
  ⟨by decide,
   unsupported_type_error_envelope (pys "stock_price") (pys "aapl") none (pys "t") (fun _ => [])
     (.requestError []) emptyCaches 0 (by decide)⟩

/-- C3: whenever `error_message` is set and non-empty, the Formatter returns
the fixed Error Report block containing that message, whatever renderer the
success path would use and whatever the other envelope fields hold — two
envelopes agreeing on the error message format identically. -/
theorem error_report_authoritative (render₁ render₂ : VerifiableDataResponse → PyStr)
    (r₁ r₂ : VerifiableDataResponse) (m : PyStr)
    (h₁ : r₁.error_message = some m) (hm : m ≠ []) :
    format_response_for_chat render₁ r₁ = errorReportText m ∧
    (r₂.error_message = some m →
      format_response_for_chat render₂ r₂ = format_response_for_chat render₁ r₁) := by
  have hb : truthyOptStr (some m) = true := by
    cases m with
    | nil => exact absurd rfl hm
    | cons a t => rfl
  constructor
  · unfold format_response_for_chat
    rw [h₁, if_pos hb]
    rfl
  · intro h₂
    unfold format_response_for_chat
    rw [h₁, h₂, if_pos hb, if_pos hb]

/-- Witness for C3: an error envelope whose payload, summary, source and
timestamp are junk is rendered as the Error Report block regardless, and a
second envelope with the same error message but different junk renders
identically. -/
theorem error_report_authoritative_witness :
    format_response_for_chat (fun _ => pys "JUNKRENDERA")
      { session_id := pys "s", request_data_type := pys "carbon_footprint",
        request_identifier := pys "x", source_description := some (pys "junk-source"),
        timestamp := some (pys "junk-time"),
        data_payload := some [(pys "junk", .s (pys "payload"))],
        verification_summary := some (pys "junk-summary"),
        error_message := some (pys "boom") } = errorReportText (pys "boom") ∧
    format_response_for_chat (fun _ => pys "JUNKRENDERB")
      { session_id := pys "s2", request_data_type := pys "other",
        request_identifier := pys "y", source_description := none,
        timestamp := none, data_payload := none, verification_summary := none,
        error_message := some (pys "boom") } =
    format_response_for_chat (fun _ => pys "JUNKRENDERA")
      { session_id := pys "s", request_data_type := pys "carbon_footprint",
        request_identifier := pys "x", source_description := some (pys "junk-source"),
        timestamp := some (pys "junk-time"),
        data_payload := some [(pys "junk", .s (pys "payload"))],
        verification_summary := some (pys "junk-summary"),
        error_message := some (pys "boom") } :=
  have h := error_report_authoritative (fun _ => pys "JUNKRENDERA") (fun _ => pys "JUNKRENDERB")
    { session_id := pys "s", request_data_type := pys "carbon_footprint",
      request_identifier := pys "x", source_description := some (pys "junk-source"),
      timestamp := some (pys "junk-time"),
      data_payload := some [(pys "junk", .s (pys "payload"))],
      verification_summary := some (pys "junk-summary"),
      error_message := some (pys "boom") }
    { session_id := pys "s2", request_data_type := pys "other",
      request_identifier := pys "y", source_description := none,
      timestamp := none, data_payload := none, verification_summary := none,
      error_message := some (pys "boom") }
    (pys "boom") rfl (by decide)
  ⟨h.1, h.2 rfl⟩

/-- C9: `handle_internal_response` sends nothing when the session id of a
completed response has no stored binding, and any outbound message it does
produce goes to exactly the address bound to that session id, carrying the
Formatter output for the response. -/
theorem response_routing_requires_binding (render : VerifiableDataResponse → PyStr)
    (storage : List (PyStr × PyStr)) (response : InternalResponse) :
    (alookup (sessionOf response) storage = none →
      handle_internal_response render storage response = none) ∧
    (∀ a m, handle_internal_response render storage response = some (a, m) →
      alookup (sessionOf response) storage = some a ∧
      m = format_response_for_chat render
        (match response with
         | .resp r => r
         | .err e => errEnvelope e)) := by
  constructor
  · intro h
    unfold handle_internal_response
    rw [h]
    split <;> rfl
  · intro a m h
    unfold handle_internal_response at h
    cases hse : (sessionOf response).isEmpty with
    | true => simp [hse] at h
    | false =>
      simp only [hse, Bool.false_eq_true, if_false] at h
      cases hl : alookup (sessionOf response) storage with
      | none => simp [hl] at h
      | some addr =>
        rw [hl] at h
        cases ha : addr.isEmpty with
        | true => simp [ha] at h
        | false =>
          simp only [ha, Bool.false_eq_true, if_false, Option.some_inj,
            Prod.mk.injEq] at h
          obtain ⟨rfl, hX⟩ := h
          refine ⟨rfl, ?_⟩
          cases response with
          | resp r => exact hX.symm
          | err e => exact hX.symm

/-- Witness for C9: an unbound session is dropped; a bound one is delivered to
its bound address with the formatted report. -/
theorem response_routing_requires_binding_witness :
    (handle_internal_response (fun _ => []) [] (.err ⟨pys "S1", pys "boom"⟩) = none) ∧
    (alookup (sessionOf (.err ⟨pys "S1", pys "boom"⟩)) [(pys "S1", pys "A")] = some (pys "A") ∧
      errorReportText (pys "boom") = format_response_for_chat (fun _ => [])
        (match (.err ⟨pys "S1", pys "boom"⟩ : InternalResponse) with
         | .resp r => r
         | .err e => errEnvelope e)) :=
  ⟨(response_routing_requires_binding (fun _ => []) [] (.err ⟨pys "S1", pys "boom"⟩)).1 rfl,
   (response_routing_requires_binding (fun _ => []) [(pys "S1", pys "A")]
      (.err ⟨pys "S1", pys "boom"⟩)).2 (pys "A") (errorReportText (pys "boom")) rfl⟩

/-- C4: the three capital-cased substring tests of the reputation aspect
heuristic (`"Developer"`, `"Service"`, `"DAO"` against the lowercased
identifier) can never match, for any identifier string, so the heuristic
always reduces to the startswith rules plus the `general` default, and the
whole aspect selection does so whenever no requested aspect is available. -/
theorem reputation_substring_heuristic_unreachable :
    (∀ nid : PyStr, ¬ pys "Developer" <:+: pyLower nid) ∧
    (∀ nid : PyStr, ¬ pys "Service" <:+: pyLower nid) ∧
    (∀ nid : PyStr, ¬ pys "DAO" <:+: pyLower nid) ∧
    (∀ available_aspects nid, selectAspectHeuristic available_aspects nid =
      selectAspectHeuristicNoSubstring available_aspects nid) ∧
    (∀ requested available_aspects nid, (∀ a, requested = some a → a ∉ available_aspects) →
      selectAspect requested available_aspects nid =
        selectAspectHeuristicNoSubstring available_aspects nid) := by
  have hdev : ∀ nid : PyStr, ¬ pys "Developer" <:+: pyLower nid := fun nid =>
    capitalized_not_infix_lower (pys "Developer") 68 (by decide) (by decide) (by decide) nid
  have hserv : ∀ nid : PyStr, ¬ pys "Service" <:+: pyLower nid := fun nid =>
    capitalized_not_infix_lower (pys "Service") 83 (by decide) (by decide) (by decide) nid
  have hdao : ∀ nid : PyStr, ¬ pys "DAO" <:+: pyLower nid := fun nid =>
    capitalized_not_infix_lower (pys "DAO") 68 (by decide) (by decide) (by decide) nid
  have hheur : ∀ available_aspects nid, selectAspectHeuristic available_aspects nid =
      selectAspectHeuristicNoSubstring available_aspects nid := by
    intro aspects nid
    unfold selectAspectHeuristic selectAspectHeuristicNoSubstring
    simp [hdev nid, hserv nid, hdao nid]
  refine ⟨hdev, hserv, hdao, hheur, ?_⟩
  intro requested aspects nid h
  cases requested with
  | none => exact hheur aspects nid
  | some a =>
    unfold selectAspect
    dsimp only
    rw [if_neg (h a rfl)]
    exact hheur aspects nid

/-- Witness for C4: a requested aspect that the entity lacks falls through to
the non-substring selection. -/
theorem reputation_substring_heuristic_unreachable_witness :
    (¬ pys "Developer" <:+: pyLower (pys "alex_developer")) ∧
    selectAspect (some (pys "developer")) [pys "general"] (pys "alex_developer") =
      selectAspectHeuristicNoSubstring [pys "general"] (pys "alex_developer") :=
  ⟨reputation_substring_heuristic_unreachable.1 (pys "alex_developer"),
   reputation_substring_heuristic_unreachable.2.2.2.2 (some (pys "developer")) [pys "general"]
     (pys "alex_developer")
     (fun a ha => by rw [Option.some_inj] at ha; subst ha; decide)⟩

theorem firstScopeContaining_eq_find (nid : PyStr) (l : List PyStr) :
    firstScopeContaining nid l =
      List.find? (fun s => (alookup nid (scopeRecords s)).isSome) l := by
  induction l with
  | nil => rfl
  | cons s rest ih =>
    unfold firstScopeContaining
    by_cases h : (alookup nid (scopeRecords s)).isSome = true
    · simp [h, List.find?]
    · simp only [Bool.not_eq_true] at h
      simp [h, List.find?, ih]

/-- C2: the scope used by the carbon resolver for lookup and cache key follows
exactly the claimed priority — the scope named in `query_details` when the
normalized identifier exists in its record set, else the first of
product, company, activity containing the identifier, else the `product`
default; in particular a requested scope that lacks the identifier is
ignored in favor of auto-detection, as on `macbook_pro` with
`scope=company`. -/
theorem carbon_scope_priority :
    (∀ nid qd, dataScope nid qd = scopeChoiceSpec nid qd) ∧
    (∀ nid qd rs, requestedScope qd = some rs →
      (alookup nid (scopeRecords rs)).isSome = false →
      dataScope nid qd = (firstScopeContaining nid
        [pys "product", pys "company", pys "activity"]).getD (pys "product")) ∧
    dataScope (pys "macbook_pro") (some (pys "scope=company")) = pys "product" := by
  have hmain : ∀ nid qd, dataScope nid qd = scopeChoiceSpec nid qd := by
    intro nid qd
    unfold dataScope scopeChoiceSpec detectedScope
    rw [firstScopeContaining_eq_find]
    cases requestedScope qd with
    | none =>
      cases List.find? (fun s => (alookup nid (scopeRecords s)).isSome)
        [pys "product", pys "company", pys "activity"] <;> rfl
    | some rs =>
      by_cases hc : (alookup nid (scopeRecords rs)).isSome = true
      · simp [hc]
      · simp only [Bool.not_eq_true] at hc
        simp only [hc, Bool.false_eq_true, if_false]
        cases List.find? (fun s => (alookup nid (scopeRecords s)).isSome)
          [pys "product", pys "company", pys "activity"] <;> rfl
  refine ⟨hmain, ?_, by decide⟩
  intro nid qd rs h1 h2
  rw [hmain]
  unfold scopeChoiceSpec
  rw [h1]
  dsimp only
  rw [if_neg (by simp [h2])]

/-- Witness for C2: `macbook_pro` with requested scope `company` (which does
not contain it) falls back to the auto-detection result. -/
theorem carbon_scope_priority_witness :
    requestedScope (some (pys "scope=company")) = some (pys "company") ∧
    (alookup (pys "macbook_pro") (scopeRecords (pys "company"))).isSome = false ∧
    dataScope (pys "macbook_pro") (some (pys "scope=company")) =
      (firstScopeContaining (pys "macbook_pro")
        [pys "product", pys "company", pys "activity"]).getD (pys "product") :=
  ⟨by decide, by decide,
   carbon_scope_priority.2.1 (pys "macbook_pro") (some (pys "scope=company")) (pys "company")
     (by decide) (by decide)⟩

/-- C6: the TTL-cache step — a fresh entry (strictly younger than 300 s) is
returned as-is without consulting the record store and without cache changes;
otherwise the store value is returned and stored under the key with a fresh
timestamp, overwriting any prior entry for that exact key; hence a second
resolution of the same key within the TTL window returns the identical record
content without consulting the store again. -/
theorem ttl_cache_contract :
    (∀ cache key now stored e, alookup key cache = some e →
      now - e.cached_at < CACHE_EXPIRY_SECONDS →
      cacheStep cache key now stored = (some e.data, cache)) ∧
    (∀ cache key now stored v,
      (∀ e, alookup key cache = some e → ¬ now - e.cached_at < CACHE_EXPIRY_SECONDS) →
      stored = some v →
      cacheStep cache key now stored = (some v, setKey cache key ⟨v, now⟩) ∧
      alookup key (setKey cache key ⟨v, now⟩) = some ⟨v, now⟩) ∧
    (∀ cache key t t2 v stored2, alookup key cache = none →
      t2 - t < CACHE_EXPIRY_SECONDS →
      (cacheStep cache key t (some v)).1 = some v ∧
      cacheStep (cacheStep cache key t (some v)).2 key t2 stored2 =
        (some v, (cacheStep cache key t (some v)).2)) := by
  refine ⟨?_, ?_, ?_⟩
  · intro cache key now stored e h1 h2
    unfold cacheStep
    rw [h1]
    dsimp only
    rw [if_pos h2]
  · intro cache key now stored v hstale hv
    subst hv
    constructor
    · unfold cacheStep
      cases hl : alookup key cache with
      | none => rfl
      | some e =>
        dsimp only
        rw [if_neg (hstale e hl)]
    · exact alookup_setKey cache key ⟨v, now⟩
  · intro cache key t t2 v stored2 hnone hfresh
    have hstep : cacheStep cache key t (some v) = (some v, setKey cache key ⟨v, t⟩) := by
      unfold cacheStep
      rw [hnone]
    rw [hstep]
    refine ⟨rfl, ?_⟩
    unfold cacheStep
    rw [alookup_setKey]
    dsimp only
    rw [if_pos (by simpa using hfresh)]

/-- Witness for C6: a fresh hit at 10 s, a stale recompute-and-store, and a
second read within the TTL window. -/
theorem ttl_cache_contract_witness :
    cacheStep [(pys "k", ⟨[(pys "a", pyInt 1)], 5⟩)] (pys "k") 10 none =
      (some [(pys "a", pyInt 1)], [(pys "k", ⟨[(pys "a", pyInt 1)], 5⟩)]) ∧
    (cacheStep [] (pys "k") 0 (some [(pys "a", pyInt 1)]) =
      (some [(pys "a", pyInt 1)], setKey [] (pys "k") ⟨[(pys "a", pyInt 1)], 0⟩) ∧
     alookup (pys "k") (setKey [] (pys "k") ⟨[(pys "a", pyInt 1)], 0⟩) =
       some ⟨[(pys "a", pyInt 1)], 0⟩) ∧
    ((cacheStep [] (pys "k") 0 (some [(pys "a", pyInt 1)])).1 = some [(pys "a", pyInt 1)] ∧
     cacheStep (cacheStep [] (pys "k") 0 (some [(pys "a", pyInt 1)])).2 (pys "k") 250 none =
       (some [(pys "a", pyInt 1)], (cacheStep [] (pys "k") 0 (some [(pys "a", pyInt 1)])).2)) :=
  ⟨ttl_cache_contract.1 [(pys "k", ⟨[(pys "a", pyInt 1)], 5⟩)] (pys "k") 10 none
      ⟨[(pys "a", pyInt 1)], 5⟩ rfl (by decide),
   ttl_cache_contract.2.1 [] (pys "k") 0 (some [(pys "a", pyInt 1)]) [(pys "a", pyInt 1)]
      (fun e he => by cases he) rfl,
   ttl_cache_contract.2.2 [] (pys "k") 0 250 [(pys "a", pyInt 1)] none rfl (by decide)⟩

theorem pySpaceToUnderscore_isEmpty (x : PyStr) :
    (pySpaceToUnderscore x).isEmpty = x.isEmpty := by
  cases x <;> rfl

theorem eduNormalize_idem (x : PyStr) :
    pySpaceToUnderscore (pyLower (pySpaceToUnderscore (pyLower x))) =
      pySpaceToUnderscore (pyLower x) := by
  unfold pySpaceToUnderscore pyLower
  simp only [List.map_map]
  have h : ((fun c => if c = 32 then 95 else c) ∘ pyLowerChar ∘
      (fun c => if c = 32 then 95 else c) ∘ pyLowerChar) =
      ((fun c => if c = 32 then 95 else c) ∘ pyLowerChar) := by
    funext c
    simp only [Function.comp_apply]
    unfold pyLowerChar
    split_ifs <;> omega
  rw [h]

theorem name_mappings_values_fixed :
    ∀ w ∈ name_mappings.map Prod.snd,
      pyLower w = w ∧ alookup w name_mappings = none ∧ w.isEmpty = false := by
  decide

theorem normalize_reputation_idem (x : PyStr) :
    normalize_reputation_identifier (normalize_reputation_identifier x) =
      normalize_reputation_identifier x := by
  unfold normalize_reputation_identifier
  by_cases hx : x.isEmpty
  · simp [hx]
  · rw [if_neg hx]
    cases hl : alookup (pyLower x) name_mappings with
    | some v =>
      have hv := name_mappings_values_fixed v (alookup_mem hl)
      simp only [Option.getD]
      rw [if_neg (by simp [hv.2.2]), hv.1, hv.2.1]
    | none =>
      simp only [Option.getD]
      have hlx : (pyLower x).isEmpty = false := by
        rw [pyLower_isEmpty]
        cases hxe : x.isEmpty
        · rfl
        · exact absurd hxe hx
      rw [if_neg (by simp [hlx]), pyLower_idem, hl]

theorem normalize_reputation_nonempty (x : PyStr) (hx : x.isEmpty = false) :
    (normalize_reputation_identifier x).isEmpty = false := by
  unfold normalize_reputation_identifier
  rw [if_neg (by simp [hx])]
  cases hl : alookup (pyLower x) name_mappings with
  | some v =>
    simp only [Option.getD]
    exact (name_mappings_values_fixed v (alookup_mem hl)).2.2
  | none =>
    simp only [Option.getD]
    rw [pyLower_isEmpty]
    exact hx

/-- C8: identifier normalization is idempotent in every domain — the carbon
normalizer, the reputation normalizer (alias-table outputs included), and the
chat-layer per-domain normalizer — and the empty string normalizes to itself
without error. -/
theorem normalization_idempotent :
    (∀ x, normalize_carbon_identifier (normalize_carbon_identifier x) =
      normalize_carbon_identifier x) ∧
    normalize_carbon_identifier [] = [] ∧
    (∀ x, normalize_reputation_identifier (normalize_reputation_identifier x) =
      normalize_reputation_identifier x) ∧
    normalize_reputation_identifier [] = [] ∧
    (∀ p ∈ name_mappings, normalize_reputation_identifier p.2 = p.2) ∧
    (∀ dt x, normalize_identifier (normalize_identifier x dt) dt =
      normalize_identifier x dt) ∧
    (∀ dt, normalize_identifier [] dt = []) := by
  have hcarbon : ∀ x, normalize_carbon_identifier (normalize_carbon_identifier x) =
      normalize_carbon_identifier x := by
    intro x
    unfold normalize_carbon_identifier
    by_cases hx : x.isEmpty
    · simp [hx]
    · rw [if_neg hx]
      have hlx : (pyLower x).isEmpty = false := by
        rw [pyLower_isEmpty]
        cases hxe : x.isEmpty
        · rfl
        · exact absurd hxe hx
      rw [if_neg (by simp [hlx]), pyLower_idem]
  refine ⟨hcarbon, rfl, normalize_reputation_idem, rfl, by decide, ?_, ?_⟩
  · intro dt x
    unfold normalize_identifier
    by_cases hx : x.isEmpty
    · simp [hx]
    · rw [if_neg hx]
      by_cases hedu : dt = pys "education_credential"
      · rw [if_pos hedu]
        have hne : (pySpaceToUnderscore (pyLower x)).isEmpty = false := by
          rw [pySpaceToUnderscore_isEmpty, pyLower_isEmpty]
          cases hxe : x.isEmpty
          · rfl
          · exact absurd hxe hx
        rw [if_neg (by simp [hne]), if_pos hedu, eduNormalize_idem]
      · rw [if_neg hedu]
        by_cases hrep : dt = pys "reputation_score"
        · rw [if_pos hrep]
          have hxf : x.isEmpty = false := by
            cases hxe : x.isEmpty
            · rfl
            · exact absurd hxe hx
          have hne := normalize_reputation_nonempty x hxf
          rw [if_neg (by simp [hne]), if_neg hedu, if_pos hrep,
            normalize_reputation_idem]
        · rw [if_neg hrep, if_neg hx, if_neg hedu, if_neg hrep]
  · intro dt
    unfold normalize_identifier
    simp

/-- Witness for C8 at concrete identifiers, an alias-table entry included. -/
theorem normalization_idempotent_witness :
    normalize_carbon_identifier (normalize_carbon_identifier (pys "MacBook_Pro")) =
      normalize_carbon_identifier (pys "MacBook_Pro") ∧
    normalize_reputation_identifier (normalize_reputation_identifier (pys "DecentraGov")) =
      normalize_reputation_identifier (pys "DecentraGov") ∧
    (pys "decentragov", pys "decentra_dao") ∈ name_mappings ∧
    normalize_reputation_identifier (pys "decentra_dao") = pys "decentra_dao" ∧
    normalize_identifier (normalize_identifier (pys "Alex Chen") (pys "education_credential"))
      (pys "education_credential") =
      normalize_identifier (pys "Alex Chen") (pys "education_credential") ∧
    normalize_identifier [] (pys "education_credential") = [] :=
  ⟨normalization_idempotent.1 (pys "MacBook_Pro"),
   normalization_idempotent.2.2.1 (pys "DecentraGov"),
   by decide,
   normalization_idempotent.2.2.2.2.1 (pys "decentragov", pys "decentra_dao") (by decide),
   normalization_idempotent.2.2.2.2.2.1 (pys "education_credential") (pys "Alex Chen"),
   normalization_idempotent.2.2.2.2.2.2 (pys "education_credential")⟩

/-- C5 counterexample: the identifier `"Alex Rodriguez"` (with a space) only
lowercases to `"alex rodriguez"`, which is not an alias-table key, so the
request does not normalize to `alex_developer` and returns a NotFound error
envelope instead of the claimed successful score-92 payload. -/
theorem alex_rodriguez_spaced_misses_alias :
    normalize_reputation_identifier (pys "Alex Rodriguez") = pys "alex rodriguez" ∧
    normalize_reputation_identifier (pys "Alex Rodriguez") ≠ pys "alex_developer" ∧
    (fetch_reputation_score (pys "Alex Rodriguez") none (pys "t") [] 0).1.error_message.isSome =
      true ∧
    (fetch_reputation_score (pys "Alex Rodriguez") none (pys "t") [] 0).1.data_payload =
      some [] :=
  ⟨by decide, by decide, rfl, rfl⟩

/-- C5 amended: an identifier that is an alias-table key — `"Alex_Rodriguez"`,
whose lowercase form `alex_rodriguez` the table maps — normalizes to
`alex_developer`, resolves to the `general` aspect, and returns a successful
envelope whose payload reports an overall score of 92. -/
theorem alex_rodriguez_alias_resolves_general_92 :
    normalize_reputation_identifier (pys "Alex_Rodriguez") = pys "alex_developer" ∧
    selectAspect (requestedAspect none) [pys "general", pys "developer"]
      (pys "alex_developer") = pys "general" ∧
    (fetch_reputation_score (pys "Alex_Rodriguez") none (pys "t") [] 0).1.error_message =
      none ∧
    pyGet ((fetch_reputation_score (pys "Alex_Rodriguez") none (pys "t") [] 0).1.data_payload.getD
        []) (pys "reputationScores") =
      .dict [ (pys "overall", pyInt 92),
              (pys "breakdown", .dict
                [ (pys "codeQuality", pyInt 95),
                  (pys "projectCompletion", pyInt 90),
                  (pys "communityEngagement", pyInt 88),
                  (pys "documentation", pyInt 85) ]) ] :=
  ⟨by decide, by decide, rfl, rfl⟩

/-- C7 counterexample: routed through the Fetch Router, an
`education_credential` request for `"Alex Chen"` is looked up raw — it misses
the record stored under `alex_chen` (which exists) and returns a NotFound
error envelope, even though the chat-layer normalizer would have produced
`alex_chen`. -/
theorem education_router_raw_identifier_miss :
    (fetch_verifiable_data (pys "education_credential") (pys "Alex Chen") none (pys "t")
      (fun _ => []) (.requestError []) emptyCaches 0).1.error_message.isSome = true ∧
    (fetch_verifiable_data (pys "education_credential") (pys "Alex Chen") none (pys "t")
      (fun _ => []) (.requestError []) emptyCaches 0).1.data_payload = some [] ∧
    (alookup (pys "alex_chen") simulated_credentials).isSome = true ∧
    normalize_identifier (pys "Alex Chen") (pys "education_credential") = pys "alex_chen" :=
  ⟨rfl, rfl, rfl, by decide⟩

/-- C7 amended: the education resolver's record lookup and cache key use the
raw identifier exactly as the router received it (no normalization on this
path); `"Alex Chen"` therefore yields a NotFound error while the
already-normalized `"alex_chen"` succeeds, and the lowercase-underscore rule
exists only in the chat-layer helper `normalize_identifier`, which the router
path never invokes. -/
theorem education_lookup_uses_raw_identifier :
    (∀ identifier qd ts sha cache now,
      (fetch_education_credential identifier qd ts sha cache now).2 =
        (cacheStep cache (pys "education_" ++ identifier) now
          (alookup identifier simulated_credentials)).2) ∧
    (∀ qd ts sha now,
      (fetch_education_credential (pys "Alex Chen") qd ts sha [] now).1.error_message.isSome =
        true ∧
      (fetch_education_credential (pys "alex_chen") qd ts sha [] now).1.error_message =
        none) := by
  constructor
  · intro identifier qd ts sha cache now
    unfold fetch_education_credential
    dsimp only
    split
    · split <;> rfl
    · rfl
  · intro qd ts sha now
    exact ⟨rfl, rfl⟩
